import Mathlib

/-!
Shallow embedding of the connection supervisor of src/src/main.rs
(remoteplay-inviter).  The single event loop in `main` is modelled as pure
functions: one transport session (the inner `while let` loop, lines 183-217)
consumes a list of receive events, and the outer reconnect loop
(lines 148-235) consumes a list of connect outcomes.  The collaborators that
live in modules not present under src (the `handlers`, `models` and
`ws_error_handler` modules, and the JSON codec) are abstract parameters of
the model, exactly as they are injected collaborators in the source:
`decode` stands for `serde_json::from_str::<ServerMessage>`, `handle` for
`Handler::handle_server_message` (a `Result<bool>` whose `true` means exit),
and `classify` for `handle_ws_error` (returning `Ok` means break the loop,
`Err` propagates as an ordinary failure).  The `RetrySec` backoff value
(module `retry`, not in src) is tracked purely through its call sites:
the model records how many times `reset` was called inside a session and
whether `next` was called after an attempt, which is all the claims need.
-/

namespace RemoteplayInviter

/-- Connect timeout in seconds: `timeout(Duration::from_secs(10), connect_async(&url))`
(main.rs line 160). -/
def connectTimeoutSecs : Nat := 10

/-- Idle receive timeout in seconds: `timeout(Duration::from_secs(60), read.next())`
(main.rs line 183). -/
def idleTimeoutSecs : Nat := 60

/-- One iteration of the inner receive loop (main.rs lines 183-217): either the
60 second idle timeout fired, the receive itself errored, or a frame arrived.
A `ping` event also records whether the subsequent `write.send(Message::Pong(ping))`
succeeds; this makes the transport nondeterminism an explicit input.  The end of
the event list models `read.next()` returning `None`. -/
inductive RecvEvent where
  | idleTimeout
  | recvError
  | close
  | ping (payload : List Nat) (sendOk : Bool)
  | text (payload : String)
  | other
deriving DecidableEq

/-- The injected collaborators, abstract exactly where the source defers to
modules outside main.rs: `decode` is the JSON deserialization of a text payload
into a `ServerMessage` (type parameter `Msg`), `handle` is
`Handler::handle_server_message` returning `Err` or `Ok(exitFlag)`, and
`classify` is `handle_ws_error` applied to a connect rejection (type parameter
`Rej`): `Ok` means terminate the loop, `Err e` is an ordinary failure. -/
structure Env (Msg Rej : Type) where
  decode : String → Option Msg
  handle : Msg → Except String Bool
  classify : Rej → Except String Unit

/-- Observable effects of one session: payloads of pong frames successfully
sent, number of `retry_sec.reset()` calls, and the decoded messages passed to
`Handler::handle_server_message`, each in order. -/
structure SessionLog (Msg : Type) where
  pongs : List (List Nat)
  resets : Nat
  handlerCalls : List Msg
deriving DecidableEq

/-- The empty session log. -/
def SessionLog.empty {Msg : Type} : SessionLog Msg := ⟨[], 0, []⟩

/-- Concatenation of session logs, used to state how a session decomposes
around a distinguished frame. -/
def SessionLog.append {Msg : Type} (a b : SessionLog Msg) : SessionLog Msg :=
  ⟨a.pongs ++ b.pongs, a.resets + b.resets, a.handlerCalls ++ b.handlerCalls⟩

/-- How one attempt of the inner closure ends, mirroring `Result<ResultConfig>`
in main.rs: `success` is `Ok(ResultConfig::Success)`, `exitBreak` is
`Ok(ResultConfig::Break)`, and `failure e` is `Err` carrying the context
string attached at the failing line. -/
inductive SessionResult where
  | success
  | exitBreak
  | failure (err : String)
deriving DecidableEq

/-- The inner receive loop of main.rs lines 183-217.  Each arm is the
corresponding `match message` arm: `Close` breaks the loop (success), `Ping`
sends a pong and resets the backoff (a send failure propagates as `Err` via
`?` with no reset), `Text` is decoded (decode failure propagates as `Err`),
then dispatched to the handler (`Err` propagates, `Ok(true)` returns
`ResultConfig::Break`, `Ok(false)` resets the backoff and continues), any
other frame is ignored.  Idle timeout and receive errors propagate as `Err`
with their context strings; exhausting the list is `read.next() == None`,
ending the loop with success. -/
def runSession {Msg Rej : Type} (env : Env Msg Rej) :
    List RecvEvent → SessionLog Msg × SessionResult
  | [] => (.empty, .success)
  | .idleTimeout :: _ => (.empty, .failure "Connection timed out")
  | .recvError :: _ => (.empty, .failure "Failed to receive message from the server")
  | .close :: _ => (.empty, .success)
  | .ping p sendOk :: rest =>
      if sendOk then
        (⟨p :: (runSession env rest).1.pongs, (runSession env rest).1.resets + 1,
          (runSession env rest).1.handlerCalls⟩, (runSession env rest).2)
      else (.empty, .failure "Failed to send pong message to the server")
  | .text s :: rest =>
      match env.decode s with
      | none => (.empty, .failure "Failed to deserialize JSON message from the server")
      | some m =>
          match env.handle m with
          | .error e => (⟨[], 0, [m]⟩, .failure e)
          | .ok true => (⟨[], 0, [m]⟩, .exitBreak)
          | .ok false =>
              (⟨(runSession env rest).1.pongs, (runSession env rest).1.resets + 1,
                m :: (runSession env rest).1.handlerCalls⟩, (runSession env rest).2)
  | .other :: rest => runSession env rest

/-- How one connection attempt starts (main.rs lines 160-170): the 10 second
connect timeout fired, `connect_async` returned an error (a protocol-level
rejection, handed to `handle_ws_error`), or the WebSocket opened and the
session then sees the given receive events. -/
inductive ConnectOutcome (Rej : Type) where
  | timedOut
  | rejected (r : Rej)
  | connected (events : List RecvEvent)
deriving DecidableEq

/-- One full attempt of the inner closure (main.rs lines 153-220): a connect
timeout is an `Err` with its context string; a rejection goes through
`handle_ws_error` (`Ok` becomes `ResultConfig::Break`, `Err` propagates);
a successful connect runs the receive loop. -/
def runAttempt {Msg Rej : Type} (env : Env Msg Rej) :
    ConnectOutcome Rej → SessionLog Msg × SessionResult
  | .timedOut => (.empty, .failure "Connection timed out to the server")
  | .rejected r =>
      match env.classify r with
      | .ok _ => (.empty, .exitBreak)
      | .error e => (.empty, .failure e)
  | .connected evs => runSession env evs

/-- What the outer loop records about one attempt: the value of the
`reconnect` flag when the attempt started, the session effects, the result,
the error printed by `eprintln` when the result was `Err` (main.rs line 227),
and whether `retry_sec.next()` was called after the attempt (main.rs
line 231). -/
structure AttemptRecord (Msg : Type) where
  reconnectAtStart : Bool
  log : SessionLog Msg
  result : SessionResult
  loggedError : Option String
  nextCalled : Bool
deriving DecidableEq

/-- The outer reconnect loop of main.rs lines 148-235, run over a finite
prefix of connect outcomes.  `Ok(Break)` breaks the labelled block: the
returned flag is true and no further outcome is consumed.  Otherwise an `Err`
is logged, and unconditionally `retry_sec.next()` is called, the loop sleeps
that many seconds, sets `reconnect = true` and retries.  Exhausting the list
returns false: the process is still looping. -/
def runSupervisor {Msg Rej : Type} (env : Env Msg Rej) (reconnect : Bool) :
    List (ConnectOutcome Rej) → List (AttemptRecord Msg) × Bool
  | [] => ([], false)
  | co :: rest =>
      match (runAttempt env co).2 with
      | .exitBreak => ([⟨reconnect, (runAttempt env co).1, .exitBreak, none, false⟩], true)
      | .success =>
          (⟨reconnect, (runAttempt env co).1, .success, none, true⟩
              :: (runSupervisor env true rest).1,
            (runSupervisor env true rest).2)
      | .failure e =>
          (⟨reconnect, (runAttempt env co).1, .failure e, some e, true⟩
              :: (runSupervisor env true rest).1,
            (runSupervisor env true rest).2)

/-- An event the receive loop consumes and then keeps looping on: a ping whose
pong was sent successfully, a text payload that decodes and whose handler call
returns `Ok(false)`, or a frame of any other kind. -/
def RecvEvent.continuing {Msg Rej : Type} (env : Env Msg Rej) : RecvEvent → Prop
  | .ping _ sendOk => sendOk = true
  | .text s => ∃ m, env.decode s = some m ∧ env.handle m = .ok false
  | .other => True
  | _ => False

/-- The log accumulated by a prefix of continuing events. -/
def consumedLog {Msg Rej : Type} (env : Env Msg Rej) : List RecvEvent → SessionLog Msg
  | [] => .empty
  | .ping p _ :: rest =>
      ⟨p :: (consumedLog env rest).pongs, (consumedLog env rest).resets + 1,
        (consumedLog env rest).handlerCalls⟩
  | .text s :: rest =>
      match env.decode s with
      | some m =>
          ⟨(consumedLog env rest).pongs, (consumedLog env rest).resets + 1,
            m :: (consumedLog env rest).handlerCalls⟩
      | none => consumedLog env rest
  | _ :: rest => consumedLog env rest

/-- Written from the spec (sections 3 and 4.3), for comparison with the code:
a liveness event is a received liveness control frame that was successfully
echoed, or a data message successfully dispatched whose handler result is
continue, counted over as much of the event list as a session consumes. -/
def specLivenessCount {Msg Rej : Type} (env : Env Msg Rej) : List RecvEvent → Nat
  | [] => 0
  | .ping _ sendOk :: rest => if sendOk then specLivenessCount env rest + 1 else 0
  | .text s :: rest =>
      match env.decode s with
      | some m =>
          match env.handle m with
          | .ok false => specLivenessCount env rest + 1
          | _ => 0
      | none => 0
  | .other :: rest => specLivenessCount env rest
  | _ :: _ => 0

/-- Concrete environment with messages and rejections drawn from `Nat`:
nothing decodes, the handler always continues, every rejection is an ordinary
failure.  Used to instantiate universally quantified theorems. -/
def env0 : Env Nat Nat :=
  ⟨fun _ => none, fun _ => .ok false, fun _ => .error "rejected"⟩

/-- Concrete environment in which every payload decodes to message `7` and the
handler signals continue. -/
def envContinue : Env Nat Nat :=
  ⟨fun _ => some 7, fun _ => .ok false, fun _ => .error "rejected"⟩

/-- Concrete environment in which every payload decodes to message `7` and the
handler signals terminate. -/
def envTerminate : Env Nat Nat :=
  ⟨fun _ => some 7, fun _ => .ok true, fun _ => .error "rejected"⟩

/-- Concrete environment in which every payload decodes to message `7` and the
handler returns an error. -/
def envHandlerFails : Env Nat Nat :=
  ⟨fun _ => some 7, fun _ => .error "handler failed", fun _ => .error "rejected"⟩

/-- Appending the empty log on the left is the identity. -/
theorem SessionLog.empty_append {Msg : Type} (b : SessionLog Msg) :
    SessionLog.empty.append b = b := by
  cases b
  simp [SessionLog.append, SessionLog.empty]

/-- Appending the empty log on the right is the identity. -/
theorem SessionLog.append_empty {Msg : Type} (a : SessionLog Msg) :
    a.append .empty = a := by
  cases a
  simp [SessionLog.append, SessionLog.empty]

/-- The receive loop consumes a prefix of continuing events without changing
how the rest of the session ends: its effects are the consumed log of the
prefix followed by the effects of the remainder. -/
theorem runSession_append {Msg Rej : Type} (env : Env Msg Rej)
    (pre evs : List RecvEvent) (h : ∀ ev ∈ pre, ev.continuing env) :
    runSession env (pre ++ evs) =
      ((consumedLog env pre).append (runSession env evs).1,
        (runSession env evs).2) := by
  induction pre with
  | nil => simp [consumedLog, SessionLog.empty_append]
  | cons ev rest ih =>
    have hev : ev.continuing env := h ev (List.mem_cons_self _ _)
    have hrest : ∀ e ∈ rest, e.continuing env :=
      fun e he => h e (List.mem_cons_of_mem _ he)
    have ihr := ih hrest
    cases ev with
    | idleTimeout => exact absurd hev (by simp [RecvEvent.continuing])
    | recvError => exact absurd hev (by simp [RecvEvent.continuing])
    | close => exact absurd hev (by simp [RecvEvent.continuing])
    | other => simpa [runSession, consumedLog] using ihr
    | ping p sendOk =>
        have hs : sendOk = true := hev
        subst hs
        simp [runSession, consumedLog, ihr, SessionLog.append]
        omega
    | text s =>
        obtain ⟨m, hd, hh⟩ := hev
        simp [runSession, consumedLog, hd, hh, ihr, SessionLog.append]
        omega

/-- Unfolding lemma for the outer loop when an attempt fails with an error:
the error is logged, `next` is called, and the loop goes on reconnecting. -/
theorem runSupervisor_cons_failure {Msg Rej : Type} (env : Env Msg Rej)
    (rc : Bool) (co : ConnectOutcome Rej) (cos : List (ConnectOutcome Rej))
    (l : SessionLog Msg) (e : String) (hA : runAttempt env co = (l, .failure e)) :
    runSupervisor env rc (co :: cos) =
      (⟨rc, l, .failure e, some e, true⟩ :: (runSupervisor env true cos).1,
        (runSupervisor env true cos).2) := by
  simp [runSupervisor, hA]

/-- Unfolding lemma for the outer loop when an attempt ends in success:
no error is logged, `next` is still called, and the loop goes on. -/
theorem runSupervisor_cons_success {Msg Rej : Type} (env : Env Msg Rej)
    (rc : Bool) (co : ConnectOutcome Rej) (cos : List (ConnectOutcome Rej))
    (l : SessionLog Msg) (hA : runAttempt env co = (l, .success)) :
    runSupervisor env rc (co :: cos) =
      (⟨rc, l, .success, none, true⟩ :: (runSupervisor env true cos).1,
        (runSupervisor env true cos).2) := by
  simp [runSupervisor, hA]

/-- Unfolding lemma for the outer loop when an attempt returns
`ResultConfig::Break`: the labelled block is broken, no `next` call happens,
and no further connect outcome is consumed. -/
theorem runSupervisor_cons_break {Msg Rej : Type} (env : Env Msg Rej)
    (rc : Bool) (co : ConnectOutcome Rej) (cos : List (ConnectOutcome Rej))
    (l : SessionLog Msg) (hA : runAttempt env co = (l, .exitBreak)) :
    runSupervisor env rc (co :: cos) = ([⟨rc, l, .exitBreak, none, false⟩], true) := by
  simp [runSupervisor, hA]

/-- Every attempt record produced by the loop with the reconnect flag already
set carries a true flag. -/
theorem reconnectAtStart_of_true {Msg Rej : Type} (env : Env Msg Rej)
    (cos : List (ConnectOutcome Rej)) :
    ∀ r ∈ (runSupervisor env true cos).1, r.reconnectAtStart = true := by
  induction cos with
  | nil => intro r hr; simp [runSupervisor] at hr
  | cons co rest ih =>
    intro r hr
    cases hres : (runAttempt env co).2 with
    | exitBreak =>
        simp [runSupervisor, hres] at hr
        simp [hr]
    | success =>
        simp [runSupervisor, hres] at hr
        rcases hr with rfl | hr
        · rfl
        · exact ih r hr
    | failure e =>
        simp [runSupervisor, hres] at hr
        rcases hr with rfl | hr
        · rfl
        · exact ih r hr

/-- C1, counterexample: in `env0`, a single attempt whose session receives
exactly a Close frame ends with `Ok(ResultConfig::Success)` and no reset, yet
the supervisor record shows `retry_sec.next()` WAS called afterwards
(main.rs line 231 runs on every non-Break result), contradicting the claim
that a Close frame ends the session without invoking the backoff failure
path. -/
theorem C1_counterexample_next_called :
    (runSupervisor env0 false [.connected [.close]]).1 =
      [⟨false, .empty, .success, none, true⟩] ∧
    (runSupervisor env0 false [.connected [.close]]).2 = false :=
  ⟨rfl, rfl⟩

/-- C1, amended: receipt of a Close frame ends the session normally (success
result, no reset, no pong, no handler call from the Close itself, no logged
error) and the supervisor proceeds to the next connection attempt rather than
terminating; however the supervisor does invoke `retry_sec.next()` and sleeps
that backoff duration before reconnecting. -/
theorem C1_amended_close_normal {Msg Rej : Type} (env : Env Msg Rej)
    (pre evs : List RecvEvent) (cos : List (ConnectOutcome Rej)) (rc : Bool)
    (h : ∀ ev ∈ pre, ev.continuing env) :
    runSession env (pre ++ .close :: evs) = (consumedLog env pre, .success) ∧
    runSupervisor env rc (.connected (pre ++ .close :: evs) :: cos) =
      (⟨rc, consumedLog env pre, .success, none, true⟩
          :: (runSupervisor env true cos).1,
        (runSupervisor env true cos).2) := by
  have hs : runSession env (pre ++ .close :: evs) = (consumedLog env pre, .success) := by
    rw [runSession_append env pre _ h]
    simp [runSession, SessionLog.append_empty]
  exact ⟨hs, runSupervisor_cons_success env rc _ cos _ (by simpa [runAttempt] using hs)⟩

/-- C1, witness: the amended theorem applied to a concrete session that echoes
one ping and then receives a Close frame. -/
theorem C1_witness :
    (∀ ev ∈ [RecvEvent.ping [2] true], ev.continuing env0) ∧
    (runSession env0 [RecvEvent.ping [2] true, RecvEvent.close] =
        (⟨[[2]], 1, []⟩, .success) ∧
      runSupervisor env0 false
          [.connected [RecvEvent.ping [2] true, RecvEvent.close], .timedOut] =
        ([⟨false, ⟨[[2]], 1, []⟩, .success, none, true⟩,
          ⟨true, .empty, .failure "Connection timed out to the server",
            some "Connection timed out to the server", true⟩], false)) :=
  ⟨by simp [RecvEvent.continuing],
    C1_amended_close_normal env0 [RecvEvent.ping [2] true] [] [.timedOut] false
      (by simp [RecvEvent.continuing])⟩

/-- C2, counterexample: both attempts fail with a connect timeout, so no
connection ever succeeded, yet the second record shows the ReconnectFlag
already true: main.rs line 234 sets `reconnect = true` after every completed
attempt, successful or not, contradicting the claim that the flag is still
false on the second attempt after a first attempt that never connected. -/
theorem C2_counterexample_flag_true_after_failure :
    (runSupervisor env0 false [.timedOut, .timedOut]).1 =
      [⟨false, .empty, .failure "Connection timed out to the server",
          some "Connection timed out to the server", true⟩,
        ⟨true, .empty, .failure "Connection timed out to the server",
          some "Connection timed out to the server", true⟩] := rfl

/-- C2, amended: the ReconnectFlag is false on the first connection attempt of
the process and true on every later attempt: it is set after every completed
attempt, whether or not a connection was ever established. -/
theorem C2_amended_reconnect_flag {Msg Rej : Type} (env : Env Msg Rej)
    (cos : List (ConnectOutcome Rej)) :
    (∀ r ∈ (runSupervisor env false cos).1.take 1, r.reconnectAtStart = false) ∧
    (∀ r ∈ (runSupervisor env false cos).1.drop 1, r.reconnectAtStart = true) := by
  cases cos with
  | nil => simp [runSupervisor]
  | cons co rest =>
    cases hres : (runAttempt env co).2 with
    | exitBreak =>
        have hA : runAttempt env co = ((runAttempt env co).1, .exitBreak) := by
          rw [← hres]
        rw [runSupervisor_cons_break env false co rest _ hA]
        simp
    | success =>
        have hA : runAttempt env co = ((runAttempt env co).1, .success) := by
          rw [← hres]
        rw [runSupervisor_cons_success env false co rest _ hA]
        constructor
        · simp
        · simpa using reconnectAtStart_of_true env rest
    | failure e =>
        have hA : runAttempt env co = ((runAttempt env co).1, .failure e) := by
          rw [← hres]
        rw [runSupervisor_cons_failure env false co rest _ _ hA]
        constructor
        · simp
        · simpa using reconnectAtStart_of_true env rest

/-- C2, witness: the amended theorem applied to two consecutive connect
timeouts, exhibiting a concrete first record with the flag false and a
concrete second record with the flag true. -/
theorem C2_witness :
    (⟨false, SessionLog.empty,
        SessionResult.failure "Connection timed out to the server",
        some "Connection timed out to the server", true⟩ :
          AttemptRecord Nat).reconnectAtStart = false ∧
    (⟨true, SessionLog.empty,
        SessionResult.failure "Connection timed out to the server",
        some "Connection timed out to the server", true⟩ :
          AttemptRecord Nat).reconnectAtStart = true :=
  ⟨(C2_amended_reconnect_flag env0 [.timedOut, .timedOut]).1 _ (by decide),
    (C2_amended_reconnect_flag env0 [.timedOut, .timedOut]).2 _ (by decide)⟩

/-- C6: within a session the backoff is reset exactly at liveness events
(successfully echoed pings and data messages dispatched with a continue
result, as counted by the spec-side `specLivenessCount`); a session that ends
right after the handshake performs no reset, and neither a connect timeout
nor a rejected connect performs any. -/
theorem C6_reset_iff_liveness {Msg Rej : Type} (env : Env Msg Rej)
    (evs : List RecvEvent) (r : Rej) :
    (runSession env evs).1.resets = specLivenessCount env evs ∧
    (runSession env ([] : List RecvEvent)).1.resets = 0 ∧
    ((runAttempt env (.timedOut : ConnectOutcome Rej)).1 : SessionLog Msg).resets = 0 ∧
    ((runAttempt env (.rejected r)).1 : SessionLog Msg).resets = 0 := by
  refine ⟨?_, rfl, rfl, ?_⟩
  · induction evs with
    | nil => rfl
    | cons ev rest ih =>
      cases ev with
      | idleTimeout => rfl
      | recvError => rfl
      | close => rfl
      | other => simpa [runSession, specLivenessCount] using ih
      | ping p sendOk =>
          cases sendOk
          · rfl
          · simp [runSession, specLivenessCount, ih]
      | text s =>
          rcases hd : env.decode s with _ | m
          · simp [runSession, specLivenessCount, hd, SessionLog.empty]
          · rcases hh : env.handle m with e | b
            · simp [runSession, specLivenessCount, hd, hh]
            · cases b
              · simp [runSession, specLivenessCount, hd, hh, ih]
              · simp [runSession, specLivenessCount, hd, hh]
  · cases hc : env.classify r <;> simp [runAttempt, hc, SessionLog.empty]

/-- C7: the connect timeout is 10 seconds and produces the distinct failure
"Connection timed out to the server", which the supervisor treats as an
ordinary retryable failure without consulting the rejection classifier; a
protocol-level connect rejection instead goes through `handle_ws_error`
(modelled by `classify`), which either terminates the whole loop or yields an
ordinary failure. -/
theorem C7_connect_timeout_distinct {Msg Rej : Type} (env : Env Msg Rej)
    (r : Rej) (cos : List (ConnectOutcome Rej)) (rc : Bool) :
    connectTimeoutSecs = 10 ∧
    runAttempt env (.timedOut : ConnectOutcome Rej) =
      ((.empty : SessionLog Msg), .failure "Connection timed out to the server") ∧
    runSupervisor env rc ((.timedOut : ConnectOutcome Rej) :: cos) =
      ((⟨rc, .empty, .failure "Connection timed out to the server",
          some "Connection timed out to the server", true⟩ : AttemptRecord Msg)
          :: (runSupervisor env true cos).1,
        (runSupervisor env true cos).2) ∧
    runAttempt env (.rejected r) =
      ((match env.classify r with
        | .ok _ => ((.empty : SessionLog Msg), .exitBreak)
        | .error e => (.empty, .failure e))) ∧
    runSupervisor env rc [.rejected r] =
      ((match env.classify r with
        | .ok _ => ([(⟨rc, .empty, .exitBreak, none, false⟩ : AttemptRecord Msg)], true)
        | .error e => ([⟨rc, .empty, .failure e, some e, true⟩], false))) := by
  refine ⟨rfl, rfl, runSupervisor_cons_failure env rc _ cos _ _ rfl, ?_, ?_⟩
  · cases hc : env.classify r <;> simp [runAttempt, hc]
  · cases hc : env.classify r with
    | ok u =>
        have hA : runAttempt env (.rejected r) =
            ((.empty : SessionLog Msg), .exitBreak) := by
          simp [runAttempt, hc]
        rw [runSupervisor_cons_break env rc _ [] _ hA]
    | error e =>
        have hA : runAttempt env (.rejected r) =
            ((.empty : SessionLog Msg), .failure e) := by
          simp [runAttempt, hc]
        rw [runSupervisor_cons_failure env rc _ [] _ _ hA]
        simp [hc, runSupervisor]

/-- C3: a Ping frame whose pong send succeeds produces exactly one pong with
the identical payload and exactly one backoff reset and the session goes on;
if sending the pong fails, no pong is recorded, no reset occurs, and the
session ends with an ordinary failure that the supervisor logs before calling
`next` and reconnecting. -/
theorem C3_ping_pong_reset {Msg Rej : Type} (env : Env Msg Rej)
    (pre : List RecvEvent) (p : List Nat) (evs : List RecvEvent)
    (cos : List (ConnectOutcome Rej)) (rc : Bool)
    (h : ∀ ev ∈ pre, ev.continuing env) :
    runSession env (pre ++ .ping p true :: evs) =
      ((consumedLog env pre).append
          ⟨p :: (runSession env evs).1.pongs, (runSession env evs).1.resets + 1,
            (runSession env evs).1.handlerCalls⟩,
        (runSession env evs).2) ∧
    runSession env (pre ++ .ping p false :: evs) =
      (consumedLog env pre, .failure "Failed to send pong message to the server") ∧
    runSupervisor env rc (.connected (pre ++ .ping p false :: evs) :: cos) =
      (⟨rc, consumedLog env pre, .failure "Failed to send pong message to the server",
          some "Failed to send pong message to the server", true⟩
          :: (runSupervisor env true cos).1,
        (runSupervisor env true cos).2) := by
  have h2 : runSession env (pre ++ .ping p false :: evs) =
      (consumedLog env pre, .failure "Failed to send pong message to the server") := by
    rw [runSession_append env pre _ h]
    simp [runSession, SessionLog.append_empty]
  refine ⟨?_, h2, runSupervisor_cons_failure env rc _ cos _ _ (by simpa [runAttempt] using h2)⟩
  rw [runSession_append env pre _ h]
  simp [runSession]

/-- C3, witness: the theorem applied to a session consisting of a single ping
with payload [1, 2, 3], once with the pong send succeeding and once with it
failing. -/
theorem C3_witness :
    (∀ ev ∈ ([] : List RecvEvent), ev.continuing env0) ∧
    (runSession env0 [RecvEvent.ping [1, 2, 3] true] =
        (⟨[[1, 2, 3]], 1, []⟩, .success) ∧
      runSession env0 [RecvEvent.ping [1, 2, 3] false] =
        (⟨[], 0, []⟩, .failure "Failed to send pong message to the server") ∧
      runSupervisor env0 false [.connected [RecvEvent.ping [1, 2, 3] false]] =
        ([⟨false, ⟨[], 0, []⟩, .failure "Failed to send pong message to the server",
            some "Failed to send pong message to the server", true⟩], false)) :=
  ⟨by simp, C3_ping_pong_reset env0 [] [1, 2, 3] [] [] false (by simp)⟩

/-- C4: a Text frame whose payload does not decode produces no handler call,
ends the session with the deserialization failure, and the supervisor logs
the error, calls `next`, sleeps and reconnects rather than terminating. -/
theorem C4_decode_failure_retryable {Msg Rej : Type} (env : Env Msg Rej)
    (pre : List RecvEvent) (s : String) (evs : List RecvEvent)
    (cos : List (ConnectOutcome Rej)) (rc : Bool)
    (h : ∀ ev ∈ pre, ev.continuing env) (hd : env.decode s = none) :
    runSession env (pre ++ .text s :: evs) =
      (consumedLog env pre,
        .failure "Failed to deserialize JSON message from the server") ∧
    runSupervisor env rc (.connected (pre ++ .text s :: evs) :: cos) =
      (⟨rc, consumedLog env pre,
          .failure "Failed to deserialize JSON message from the server",
          some "Failed to deserialize JSON message from the server", true⟩
          :: (runSupervisor env true cos).1,
        (runSupervisor env true cos).2) := by
  have hs : runSession env (pre ++ .text s :: evs) =
      (consumedLog env pre,
        .failure "Failed to deserialize JSON message from the server") := by
    rw [runSession_append env pre _ h]
    simp [runSession, hd, SessionLog.append_empty]
  exact ⟨hs, runSupervisor_cons_failure env rc _ cos _ _ (by simpa [runAttempt] using hs)⟩

/-- C4, witness: the theorem applied to the payload "not json" in `env0`,
where nothing decodes. -/
theorem C4_witness :
    ((∀ ev ∈ ([] : List RecvEvent), ev.continuing env0) ∧
      env0.decode "not json" = none) ∧
    (runSession env0 [RecvEvent.text "not json"] =
        (⟨[], 0, []⟩, .failure "Failed to deserialize JSON message from the server") ∧
      runSupervisor env0 false [.connected [RecvEvent.text "not json"]] =
        ([⟨false, ⟨[], 0, []⟩,
            .failure "Failed to deserialize JSON message from the server",
            some "Failed to deserialize JSON message from the server", true⟩], false)) :=
  ⟨⟨by simp, rfl⟩,
    C4_decode_failure_retryable env0 [] "not json" [] [] false (by simp) rfl⟩

/-- C5: when the handler returns the terminate signal for a dispatched
message, the session returns `ResultConfig::Break` and the supervisor stops
at once: exactly one record is produced no matter how many further connect
outcomes were available, no `next` call and no sleep happen, no reset is
performed for this dispatch, and the loop reports terminated. -/
theorem C5_handler_terminate_absorbing {Msg Rej : Type} (env : Env Msg Rej)
    (pre : List RecvEvent) (s : String) (m : Msg) (evs : List RecvEvent)
    (cos : List (ConnectOutcome Rej)) (rc : Bool)
    (h : ∀ ev ∈ pre, ev.continuing env) (hd : env.decode s = some m)
    (hh : env.handle m = .ok true) :
    runSession env (pre ++ .text s :: evs) =
      ((consumedLog env pre).append ⟨[], 0, [m]⟩, .exitBreak) ∧
    runSupervisor env rc (.connected (pre ++ .text s :: evs) :: cos) =
      ([⟨rc, (consumedLog env pre).append ⟨[], 0, [m]⟩, .exitBreak, none, false⟩],
        true) := by
  have hs : runSession env (pre ++ .text s :: evs) =
      ((consumedLog env pre).append ⟨[], 0, [m]⟩, .exitBreak) := by
    rw [runSession_append env pre _ h]
    simp [runSession, hd, hh]
  exact ⟨hs, runSupervisor_cons_break env rc _ cos _ (by simpa [runAttempt] using hs)⟩

/-- C5, witness: the theorem applied in `envTerminate`, where every payload
decodes to message 7 and the handler signals terminate, with two further
connect outcomes available that are never attempted. -/
theorem C5_witness :
    ((∀ ev ∈ ([] : List RecvEvent), ev.continuing envTerminate) ∧
      envTerminate.decode "x" = some 7 ∧ envTerminate.handle 7 = .ok true) ∧
    (runSession envTerminate [RecvEvent.text "x"] = (⟨[], 0, [7]⟩, .exitBreak) ∧
      runSupervisor envTerminate false
          [.connected [RecvEvent.text "x"], .timedOut, .timedOut] =
        ([⟨false, ⟨[], 0, [7]⟩, .exitBreak, none, false⟩], true)) :=
  ⟨⟨by simp, rfl, rfl⟩,
    C5_handler_terminate_absorbing envTerminate [] "x" 7 [] [.timedOut, .timedOut]
      false (by simp) rfl rfl⟩

/-- C8: the idle timeout is 60 seconds; when it fires the session ends with
the failure "Connection timed out", which the supervisor logs before calling
`next` and reconnecting — never terminating the process. -/
theorem C8_idle_timeout_retryable {Msg Rej : Type} (env : Env Msg Rej)
    (pre evs : List RecvEvent) (cos : List (ConnectOutcome Rej)) (rc : Bool)
    (h : ∀ ev ∈ pre, ev.continuing env) :
    idleTimeoutSecs = 60 ∧
    runSession env (pre ++ .idleTimeout :: evs) =
      (consumedLog env pre, .failure "Connection timed out") ∧
    runSupervisor env rc (.connected (pre ++ .idleTimeout :: evs) :: cos) =
      (⟨rc, consumedLog env pre, .failure "Connection timed out",
          some "Connection timed out", true⟩ :: (runSupervisor env true cos).1,
        (runSupervisor env true cos).2) := by
  have hs : runSession env (pre ++ .idleTimeout :: evs) =
      (consumedLog env pre, .failure "Connection timed out") := by
    rw [runSession_append env pre _ h]
    simp [runSession, SessionLog.append_empty]
  exact ⟨rfl, hs, runSupervisor_cons_failure env rc _ cos _ _ (by simpa [runAttempt] using hs)⟩

/-- C8, witness: the theorem applied to a session that echoes one ping and
then sees the idle timeout fire, followed by one further reconnect attempt. -/
theorem C8_witness :
    (∀ ev ∈ [RecvEvent.ping [1] true], ev.continuing env0) ∧
    (idleTimeoutSecs = 60 ∧
      runSession env0 [RecvEvent.ping [1] true, RecvEvent.idleTimeout] =
        (⟨[[1]], 1, []⟩, .failure "Connection timed out") ∧
      runSupervisor env0 false
          [.connected [RecvEvent.ping [1] true, RecvEvent.idleTimeout], .timedOut] =
        ([⟨false, ⟨[[1]], 1, []⟩, .failure "Connection timed out",
            some "Connection timed out", true⟩,
          ⟨true, ⟨[], 0, []⟩, .failure "Connection timed out to the server",
            some "Connection timed out to the server", true⟩], false)) :=
  ⟨by simp [RecvEvent.continuing],
    C8_idle_timeout_retryable env0 [RecvEvent.ping [1] true] [] [.timedOut] false
      (by simp [RecvEvent.continuing])⟩

/-- C9: a Text frame whose payload decodes to message m invokes the handler
exactly once with m, and exactly one backoff reset happens if and only if the
handler result is continue: on continue the reset is recorded and the session
goes on, on terminate the session breaks with no reset, on a handler error
the session fails with no reset. -/
theorem C9_valid_json_dispatch {Msg Rej : Type} (env : Env Msg Rej)
    (pre : List RecvEvent) (s : String) (m : Msg) (evs : List RecvEvent)
    (h : ∀ ev ∈ pre, ev.continuing env) (hd : env.decode s = some m) :
    runSession env (pre ++ .text s :: evs) =
      (match env.handle m with
        | .error e => ((consumedLog env pre).append ⟨[], 0, [m]⟩, .failure e)
        | .ok true => ((consumedLog env pre).append ⟨[], 0, [m]⟩, .exitBreak)
        | .ok false =>
            ((consumedLog env pre).append
                ⟨(runSession env evs).1.pongs, (runSession env evs).1.resets + 1,
                  m :: (runSession env evs).1.handlerCalls⟩,
              (runSession env evs).2)) := by
  rw [runSession_append env pre _ h]
  cases hh : env.handle m with
  | error e => simp [runSession, hd, hh]
  | ok b => cases b <;> simp [runSession, hd, hh]

/-- C9, witness: the theorem applied in `envContinue`, where "x" decodes to
message 7 and the handler signals continue: the handler is called once with 7
and exactly one reset is recorded. -/
theorem C9_witness :
    ((∀ ev ∈ ([] : List RecvEvent), ev.continuing envContinue) ∧
      envContinue.decode "x" = some 7) ∧
    runSession envContinue [RecvEvent.text "x"] = (⟨[], 1, [7]⟩, .success) :=
  ⟨⟨by simp, rfl⟩, C9_valid_json_dispatch envContinue [] "x" 7 [] (by simp) rfl⟩

/-- C10: when the handler itself returns an error for a successfully decoded
message, the session ends with that error and no reset, and the supervisor
logs it, calls `next`, sleeps and reconnects rather than terminating the
process. -/
theorem C10_handler_error_retryable {Msg Rej : Type} (env : Env Msg Rej)
    (pre : List RecvEvent) (s : String) (m : Msg) (e : String)
    (evs : List RecvEvent) (cos : List (ConnectOutcome Rej)) (rc : Bool)
    (h : ∀ ev ∈ pre, ev.continuing env) (hd : env.decode s = some m)
    (hh : env.handle m = .error e) :
    runSession env (pre ++ .text s :: evs) =
      ((consumedLog env pre).append ⟨[], 0, [m]⟩, .failure e) ∧
    runSupervisor env rc (.connected (pre ++ .text s :: evs) :: cos) =
      (⟨rc, (consumedLog env pre).append ⟨[], 0, [m]⟩, .failure e, some e, true⟩
          :: (runSupervisor env true cos).1,
        (runSupervisor env true cos).2) := by
  have hs : runSession env (pre ++ .text s :: evs) =
      ((consumedLog env pre).append ⟨[], 0, [m]⟩, .failure e) := by
    rw [runSession_append env pre _ h]
    simp [runSession, hd, hh]
  exact ⟨hs, runSupervisor_cons_failure env rc _ cos _ _ (by simpa [runAttempt] using hs)⟩

/-- C10, witness: the theorem applied in `envHandlerFails`, where "x" decodes
to message 7 and the handler returns the error "handler failed", with one
further reconnect attempt following. -/
theorem C10_witness :
    ((∀ ev ∈ ([] : List RecvEvent), ev.continuing envHandlerFails) ∧
      envHandlerFails.decode "x" = some 7 ∧
      envHandlerFails.handle 7 = .error "handler failed") ∧
    (runSession envHandlerFails [RecvEvent.text "x"] =
        (⟨[], 0, [7]⟩, .failure "handler failed") ∧
      runSupervisor envHandlerFails false [.connected [RecvEvent.text "x"], .timedOut] =
        ([⟨false, ⟨[], 0, [7]⟩, .failure "handler failed", some "handler failed", true⟩,
          ⟨true, ⟨[], 0, []⟩, .failure "Connection timed out to the server",
            some "Connection timed out to the server", true⟩], false)) :=
  ⟨⟨by simp, rfl, rfl⟩,
    C10_handler_error_retryable envHandlerFails [] "x" 7 "handler failed" [] [.timedOut]
      false (by simp) rfl rfl⟩

end RemoteplayInviter
